import Mathlib

/-!
# Shallow embedding of the pygod detector core (`pygod/detector/base.py`)

Scores are modelled as rationals (`ℚ`), score vectors as `List ℚ`.
`Detector` models the abstract base class `Detector`; `DeepDetector`
models the deep-learning orchestration subclass.  Abstract subclass
hooks (`process_graph`, `forward_model`, the model embedding buffer)
are passed as function parameters, matching the duck-typed hook methods
of the source.
-/

set_option maxRecDepth 8000

namespace PyGod

/-- Insert a value into an ascending-sorted list, keeping it sorted.
Building block for the sort performed inside `numpy.percentile`. -/
def insertSorted (x : ℚ) : List ℚ → List ℚ
  | [] => [x]
  | y :: ys => if x ≤ y then x :: y :: ys else y :: insertSorted x ys

/-- Ascending sort of a score list (as `numpy.percentile` sorts its input). -/
def sortScores (l : List ℚ) : List ℚ := l.foldr insertSorted []

/-- `numpy.percentile(scores, q)` with the default linear interpolation
between order statistics: with `s` the ascending sort of `scores` and
`n` its length, the virtual index is `q / 100 * (n - 1)`; the result
interpolates between the two neighbouring order statistics. -/
def percentile (scores : List ℚ) (q : ℚ) : ℚ :=
  let s := sortScores scores
  let n := s.length
  let idx : ℚ := q / 100 * ((n : ℚ) - 1)
  let i : ℕ := (⌊idx⌋).toNat
  let frac : ℚ := idx - (i : ℚ)
  let lo := s.getD i 0
  let hi := s.getD (i + 1) lo
  lo + frac * (hi - lo)

/-- `torch.Tensor.clamp(0, 1)` applied pointwise. -/
def clamp01 (x : ℚ) : ℚ := max 0 (min x 1)

/-- `Tensor.min()` of a score vector (the source only takes it on the
non-empty training score vector). -/
def listMin (l : List ℚ) : ℚ := l.min?.getD 0

/-- `Tensor.max()` of a score vector. -/
def listMax (l : List ℚ) : ℚ := l.max?.getD 0

/-- State of the abstract base class `Detector`.  `decision_score_` is
set to `None` by `__init__`; `threshold_` and `label_` do not exist
before `fit` completes, modelled as `none`. -/
structure Detector where
  contamination : ℚ
  verbose : ℤ
  decision_score_ : Option (List ℚ)
  threshold_ : Option ℚ
  label_ : Option (List ℤ)
deriving Repr, DecidableEq

/-- `Detector.__init__`: validates `contamination ∈ (0, 0.5]` first and
raises `ValueError` otherwise; on success stores the configuration and
sets `decision_score_ = None`. -/
def Detector.make (contamination : ℚ) (verbose : ℤ) : Except String Detector :=
  if 0 < contamination ∧ contamination ≤ 1/2 then
    .ok { contamination := contamination
        , verbose := verbose
        , decision_score_ := none
        , threshold_ := none
        , label_ := none }
  else
    .error "ValueError: contamination must be in (0, 0.5]"

/-- Mean of a score vector, `torch.mean`. -/
def listMean (l : List ℚ) : ℚ := l.sum / (l.length : ℚ)

/-- Python `int(q)`: truncation toward zero. -/
def truncToInt (q : ℚ) : ℤ := if 0 ≤ q then ⌊q⌋ else -⌊-q⌋

/-- `scipy.stats.binom.cdf(k, n, p)` at an integer point `k`:
`0` for `k < 0`, else `∑ i ≤ k, C(n,i) p^i (1-p)^(n-i)` (the terms with
`i > n` vanish since `C(n,i) = 0`). -/
def binom_cdf (k : ℤ) (n : ℕ) (p : ℚ) : ℚ :=
  if k < 0 then 0
  else ∑ i ∈ Finset.range (k.toNat + 1),
    (n.choose i : ℚ) * p ^ i * (1 - p) ^ (n - i)

/-- The floating-point special functions used by the `unify`
probability method (`scipy.special.erf`, `torch.std`, `np.sqrt(2)`).
They are irrational-valued, so they enter the model as an abstract
numeric backend; no claim in this development depends on their values. -/
structure NumericBackend where
  erf : ℚ → ℚ
  std : List ℚ → ℚ
  sqrt2 : ℚ

/-- Modelled from the spec: `pygod.utils.is_fitted` is not under `src/`.
The spec says a predict/decision-function-dependent call before `fit`
fails with a "not fitted" state error because `decision_score_`,
`threshold_` and `label_` are absent; the check passed the attribute
list `[decision_score_, threshold_, label_]`, so fitted means all
three are present. -/
def Detector.isFitted (d : Detector) : Bool :=
  d.decision_score_.isSome && d.threshold_.isSome && d.label_.isSome

/-- `Detector._predict_prob`: convert outlier scores to probabilities.
`linear` min-max rescales by the stored training scores and clamps to
`[0, 1]`; `unify` applies the erf-based unifying transform; any other
method name raises `ValueError` naming the offending value. -/
def Detector._predict_prob (d : Detector) (score : List ℚ) (method : String)
    (nb : NumericBackend) : Except String (List ℚ) :=
  if method = "linear" then
    match d.decision_score_ with
    | none => .error "AttributeError: NoneType object has no attribute min"
    | some train_score =>
        let mn := listMin train_score
        let mx := listMax train_score
        .ok (score.map fun s => clamp01 ((s - mn) / (mx - mn)))
  else if method = "unify" then
    match d.decision_score_ with
    | none => .error "TypeError: mean of NoneType"
    | some train_score =>
        let mu := listMean train_score
        let sigma := nb.std train_score
        .ok (score.map fun s => clamp01 (nb.erf ((s - mu) / (sigma * nb.sqrt2))))
  else
    .error (method ++ " is not a valid probability conversion method")

/-- `Detector._predict_conf`: Bayesian prediction confidence.  With `n`
the training-set size and `k = n - int(n * contamination)`, each test
score `s` gets `n_ins` = number of training scores `≤ s`, posterior
inlier probability `(1 + n_ins) / (2 + n)`, raw confidence
`1 - binom.cdf(k, n, post)`, flipped to `1 - conf` where the prediction
(`s > threshold_`) is inlier. -/
def Detector._predict_conf (d : Detector) (score : List ℚ) :
    Except String (List ℚ) :=
  match d.decision_score_, d.threshold_ with
  | some train, some t =>
      let n := train.length
      let k : ℤ := (n : ℤ) - truncToInt ((n : ℚ) * d.contamination)
      .ok (score.map fun s =>
        let n_ins := (train.filter fun x => x ≤ s).length
        let post : ℚ := (1 + (n_ins : ℚ)) / (2 + (n : ℚ))
        let conf := 1 - binom_cdf k n post
        if t < s then conf else 1 - conf)
  | _, _ => .error "AttributeError: detector has no decision scores"

/-- One component of the tuple returned by `predict`. -/
inductive PredOut
  | pred (v : List ℤ)
  | score (v : List ℚ)
  | prob (v : List ℚ)
  | conf (v : List ℚ)
  | emb (v : Option (List (List ℚ)))
deriving Repr, DecidableEq

/-- The flag-driven output construction shared by `Detector.predict`
and the `DeepDetector.predict` override (which delegates to it via
`super().predict`): append `pred`, `score`, `prob`, `conf` in that
fixed order, each when its flag is set.  The source unwraps a
one-element tuple; the model keeps the list, whose singleton case is
that unwrapped value. -/
def Detector.predictOutputs (d : Detector) (score : List ℚ)
    (return_pred return_score return_prob : Bool) (prob_method : String)
    (nb : NumericBackend) (return_conf : Bool) :
    Except String (List PredOut) := do
  let mut output : List PredOut := []
  if return_pred then
    output := output ++
      [PredOut.pred (score.map fun s => if d.threshold_.getD 0 < s then (1 : ℤ) else 0)]
  if return_score then
    output := output ++ [PredOut.score score]
  if return_prob then
    let prob ← d._predict_prob score prob_method nb
    output := output ++ [PredOut.prob prob]
  if return_conf then
    let conf ← d._predict_conf score
    output := output ++ [PredOut.conf conf]
  return output

/-- `Detector.predict` (base class): check `is_fitted` first, then pick
the score source — the stored training `decision_score_` when `data` is
`None` (the `logger` call there is external observability with no
return value), else a fresh `decision_function` run on `data` — and
build the flag-selected outputs.  `decision_function` is an abstract
method of the base class, passed here as a function argument. -/
def Detector.predict {γ : Type} (d : Detector) (data : Option γ)
    (decision_function : γ → List ℚ)
    (return_pred return_score return_prob : Bool) (prob_method : String)
    (nb : NumericBackend) (return_conf : Bool) :
    Except String (List PredOut) :=
  if ¬ d.isFitted then
    .error "NotFittedError: this detector is not fitted yet"
  else
    let score :=
      match data with
      | none => d.decision_score_.getD []
      | some g => decision_function g
    d.predictOutputs score return_pred return_score return_prob
      prob_method nb return_conf

/-- `Detector._process_decision_score`: sets `threshold_` to the
`100 * (1 - contamination)` percentile of `decision_score_` and
`label_` to the indicator of scores strictly above the threshold.
The source unconditionally reads `self.decision_score_`; it is only
called at the end of `fit`, where the score vector is present. -/
def Detector._process_decision_score (d : Detector) : Detector :=
  match d.decision_score_ with
  | none => d
  | some scores =>
      let t := percentile scores (100 * (1 - d.contamination))
      { d with threshold_ := some t
             , label_ := some (scores.map fun s => if t < s then (1 : ℤ) else 0) }

/-! ## DeepDetector: mini-batch training and inference orchestration -/

/-- The input graph, as far as the orchestration core reads it:
`data.x.shape = (num_nodes, in_dim)`.  Features and edges are consumed
only by the sampler and the model hooks. -/
structure GraphData where
  num_nodes : ℕ
  in_dim : ℕ
deriving Repr, DecidableEq

/-- One mini-batch from `torch_geometric.loader.NeighborLoader`:
`batch_size` seed nodes, and `n_id` mapping batch-local rows to global
node ids (the first `batch_size` entries are the seeds). -/
structure Batch where
  batch_size : ℕ
  n_id : List ℕ
deriving Repr, DecidableEq

/-- The loss returned by the subclass hook `forward_model`: a scalar
tensor normally, a (generator, discriminator) pair for GAN models. -/
inductive Loss
  | single (l : ℚ)
  | pair (g d : ℚ)
deriving Repr, DecidableEq

/-- The optimizers appearing in `DeepDetector.fit`: `opt_g` / `opt_d`
under `gan`, the single Adam optimizer otherwise. -/
inductive OptName
  | generator
  | discriminator
  | single
deriving Repr, DecidableEq

/-- One optimizer-related call performed by the training loop.
`backward o` records which loss tensor is back-propagated: `generator`
for `loss[0]`, `discriminator` for `loss[1]`, `single` for the scalar
`loss`. -/
inductive OptEvent
  | zero_grad (o : OptName)
  | backward (o : OptName)
  | step (o : OptName)
deriving Repr, DecidableEq

/-- The optimizer calls of one `gan` training batch, source lines
486-492: `opt_g.zero_grad(); loss[0].backward(); opt_g.step();
opt_d.zero_grad(); loss[0].backward(); opt_d.step()`.  Note that the
second `backward` also uses `loss[0]`, the generator component. -/
def ganOptOps : List OptEvent :=
  [.zero_grad .generator, .backward .generator, .step .generator,
   .zero_grad .discriminator, .backward .generator, .step .discriminator]

/-- The optimizer calls of one non-`gan` training batch, source lines
494-496. -/
def singleOptOps : List OptEvent :=
  [.zero_grad .single, .backward .single, .step .single]

/-- `tensor[idx] = vals` for index tensor `idx`: element-wise scatter
write into a copy of `base`. -/
def scatterWrite {α : Type} (base : List α) (idx : List ℕ) (vals : List α) :
    List α :=
  (idx.zip vals).foldl (fun acc p => acc.set p.1 p.2) base

/-- `torch.zeros(n, m)` as a list of rows. -/
def zerosMat (n m : ℕ) : List (List ℚ) := List.replicate n (List.replicate m 0)

/-- Modelled from the spec: `pygod.utils.validate_device` is not under
`src/`.  The spec only says it selects CPU (`-1`) or an accelerator
index, so the model keeps the index itself. -/
def validate_device (gpu : ℤ) : ℤ := gpu

/-- `num_neigh` as passed to the constructor: a single int replicated
across layers, or an explicit per-hop list. -/
inductive NumNeigh
  | ofInt (n : ℤ)
  | ofList (l : List ℤ)
deriving Repr, DecidableEq

/-- State of a `DeepDetector` instance.  `sub` is the subclass-specific
state written by the `process_graph` hook (e.g. the GAD-NR neighbor
statistics; the OCGNN `process_graph` is a no-op) — no concrete subclass
in the repository touches the base statistics fields from that hook.
`hasModel` models `self.model is not None`; the embedding buffer `emb`
exists only once allocated.  `act`, `backbone`, `compile_model` and
`**kwargs` are opaque pass-through configuration for the model factory
and are not modelled. -/
structure DeepDetector (σ : Type) extends Detector where
  in_dim : Option ℕ
  num_nodes : Option ℕ
  hid_dim : ℕ
  num_layers : ℕ
  dropout : ℚ
  weight_decay : ℚ
  lr : ℚ
  epoch : ℕ
  device : ℤ
  batch_size : ℕ
  gan : Bool
  num_neigh : List ℤ
  hasModel : Bool
  save_emb : Bool
  emb : Option (List (List ℚ))
  sub : σ

/-- `DeepDetector.__init__`: `super().__init__` validates
`contamination` first; then the training parameters are stored and
`num_neigh` is resolved — an int is replicated `num_layers` times, a
list must have length `num_layers`, anything else is a `ValueError`
(the int/list alternative is the `NumNeigh` type). -/
def DeepDetector.make {σ : Type} (sub : σ) (hid_dim num_layers : ℕ)
    (dropout weight_decay : ℚ) (contamination : ℚ) (lr : ℚ) (epoch : ℕ)
    (gpu : ℤ) (batch_size : ℕ) (num_neigh : NumNeigh) (verbose : ℤ)
    (gan save_emb : Bool) : Except String (DeepDetector σ) :=
  match Detector.make contamination verbose with
  | .error msg => .error msg
  | .ok base =>
      match num_neigh with
      | .ofInt n =>
          .ok { toDetector := base
              , in_dim := none
              , num_nodes := none
              , hid_dim := hid_dim
              , num_layers := num_layers
              , dropout := dropout
              , weight_decay := weight_decay
              , lr := lr
              , epoch := epoch
              , device := validate_device gpu
              , batch_size := batch_size
              , gan := gan
              , num_neigh := List.replicate num_layers n
              , hasModel := false
              , save_emb := save_emb
              , emb := none
              , sub := sub }
      | .ofList l =>
          if l.length ≠ num_layers then
            .error "ValueError: Number of neighbors should have the same length as hidden layers dimension or the number of layers."
          else
            .ok { toDetector := base
                , in_dim := none
                , num_nodes := none
                , hid_dim := hid_dim
                , num_layers := num_layers
                , dropout := dropout
                , weight_decay := weight_decay
                , lr := lr
                , epoch := epoch
                , device := validate_device gpu
                , batch_size := batch_size
                , gan := gan
                , num_neigh := l
                , hasModel := false
                , save_emb := save_emb
                , emb := none
                , sub := sub }

/-- Copy the freshly computed model embedding rows for the seed nodes
of this batch into the persistent buffer at the global indices of the
batch:
`self.emb[node_idx[:batch_size]] = self.model.emb[:batch_size].cpu()`
(the single-tensor case; the concrete subclasses in the repository all
have a single embedding tensor).  `model_emb` stands for
`self.model.emb` after the forward pass on this batch. -/
def writeEmb {σ : Type} (model_emb : Batch → List (List ℚ))
    (det : DeepDetector σ) (b : Batch) : DeepDetector σ :=
  if det.save_emb then
    { det with emb := some (scatterWrite (det.emb.getD [])
        (b.n_id.take b.batch_size) ((model_emb b).take b.batch_size)) }
  else det

/-- Mutable state of one `fit` call: the detector (`self`), the epoch
loss accumulators (`epoch_loss` or the `_g`/`_d` pair under `gan`), and
the optimizer-call trace. -/
structure TrainState (σ : Type) where
  det : DeepDetector σ
  epoch_loss : ℚ
  epoch_loss_g : ℚ
  epoch_loss_d : ℚ
  trace : List OptEvent

/-- One iteration of the inner batch loop of `fit` (source lines
463-496): run `forward_model`, accumulate `loss * batch_size`
(subscripting a scalar loss under `gan`, or `.item()` on a pair without
`gan`, is a type error raised before any write), copy embeddings if
`save_emb`, write the seed scores into `decision_score_`, then
zero/backward/step the optimizer(s). -/
def fitBatch {σ : Type} (fm : Batch → Loss × List ℚ)
    (model_emb : Batch → List (List ℚ)) (st : TrainState σ) (b : Batch) :
    TrainState σ × Option String :=
  let bs := b.batch_size
  let (loss, score) := fm b
  if st.det.gan then
    match loss with
    | .single _ => (st, some "TypeError: scalar loss is not subscriptable")
    | .pair lg ld =>
        let st := { st with epoch_loss_g := st.epoch_loss_g + lg * (bs : ℚ)
                          , epoch_loss_d := st.epoch_loss_d + ld * (bs : ℚ) }
        let det := writeEmb model_emb st.det b
        let det := { det with decision_score_ := some (scatterWrite
          (det.decision_score_.getD []) (b.n_id.take bs) score) }
        ({ st with det := det, trace := st.trace ++ ganOptOps }, none)
  else
    match loss with
    | .pair _ _ =>
        (st, some "ValueError: only one element tensors can be converted")
    | .single l =>
        let st := { st with epoch_loss := st.epoch_loss + l * (bs : ℚ) }
        let det := writeEmb model_emb st.det b
        let det := { det with decision_score_ := some (scatterWrite
          (det.decision_score_.getD []) (b.n_id.take bs) score) }
        ({ st with det := det, trace := st.trace ++ singleOptOps }, none)

/-- Run the batch loop over the batches of the loader in order, stopping at
the first raised error (Python exceptions abort the loop, leaving the
mutations made so far in place). -/
def runBatches {σ : Type} (fm : Batch → Loss × List ℚ)
    (model_emb : Batch → List (List ℚ)) (st : TrainState σ) :
    List Batch → TrainState σ × Option String
  | [] => (st, none)
  | b :: bs =>
      match fitBatch fm model_emb st b with
      | (st', some msg) => (st', some msg)
      | (st', none) => runBatches fm model_emb st' bs

/-- The epoch loop of `fit` (`for epoch in range(self.epoch)`), run for
the given number of remaining epochs.  Each epoch zeroes its loss
accumulators and runs the batch loop; at the end of the epoch the
source computes the epoch loss for logging as
`self.epoch_loss_g / N` under `gan` — but `epoch_loss_g` is a local
variable, not an attribute, so a `gan`-mode epoch always ends in an
`AttributeError`.  Without `gan` the logged value is
`epoch_loss / N`; the `logger` call is external observability. -/
def runEpochs {σ : Type} (fm : Batch → Loss × List ℚ)
    (model_emb : Batch → List (List ℚ)) (loader : List Batch) :
    ℕ → TrainState σ → TrainState σ × Option String
  | 0, st => (st, none)
  | Nat.succ k, st =>
      let st0 := { st with epoch_loss := 0, epoch_loss_g := 0, epoch_loss_d := 0 }
      match runBatches fm model_emb st0 loader with
      | (st', some msg) => (st', some msg)
      | (st', none) =>
          if st'.det.gan then
            (st', some "AttributeError: object has no attribute epoch_loss_g")
          else
            runEpochs fm model_emb loader k st'

/-- Result of a `fit` call: the state of `self` when the call returned
or raised, the optimizer-call trace, and the raised exception if any. -/
structure FitOutcome (σ : Type) where
  det : DeepDetector σ
  trace : List OptEvent
  error : Option String

/-- `DeepDetector.fit` (source lines 429-512): `process_graph`, derive
`num_nodes`/`in_dim` from `data.x.shape`, resolve `batch_size = 0` to
the node count, build the `NeighborLoader` from `(data, num_neigh,
batch_size)` (the loader is the external sampler collaborator `NL`),
instantiate the model via the `init_model` hook (the concrete hooks
allocate the embedding buffer when `save_emb`; `compile_model` is an
opaque performance transform), build the optimizer(s), initialize
`decision_score_` to zeros, run the epoch loop, and finally derive
threshold and labels via `_process_decision_score`. -/
def DeepDetector.fit {σ : Type} (d : DeepDetector σ) (data : GraphData)
    (pg : GraphData → σ → σ) (NL : GraphData → List ℤ → ℕ → List Batch)
    (fm : Batch → Loss × List ℚ) (model_emb : Batch → List (List ℚ)) :
    FitOutcome σ :=
  let d1 := { d with sub := pg data d.sub
                   , num_nodes := some data.num_nodes
                   , in_dim := some data.in_dim }
  let d2 := if d1.batch_size = 0 then { d1 with batch_size := data.num_nodes }
            else d1
  let loader := NL data d2.num_neigh d2.batch_size
  let d3 := { d2 with hasModel := true
                    , emb := if d2.save_emb
                             then some (zerosMat data.num_nodes d2.hid_dim)
                             else d2.emb }
  let d4 :=
    { d3 with decision_score_ := some (List.replicate data.num_nodes (0 : ℚ)) }
  let st0 : TrainState σ := ⟨d4, 0, 0, 0, []⟩
  match runEpochs fm model_emb loader d4.epoch st0 with
  | (st, some msg) => { det := st.det, trace := st.trace, error := some msg }
  | (st, none) =>
      { det := { st.det with
                   toDetector := st.det.toDetector._process_decision_score }
      , trace := st.trace
      , error := none }

/-- Mutable state of one `decision_function` call: the detector
(`self`, whose `emb` buffer may be rewritten), the local
`outlier_score` vector, and the test loss accumulators. -/
structure EvalState (σ : Type) where
  det : DeepDetector σ
  outlier_score : List ℚ
  test_loss : ℚ
  test_loss_g : ℚ
  test_loss_d : ℚ

/-- One iteration of the batch loop of `decision_function` (source
lines 535-555): forward pass, embedding copy when `save_emb`, loss
bookkeeping for the final log line (the source accumulates
`test_loss_g` with `+=` but plainly assigns `test_loss_d` and
`test_loss`, faithfully kept), and the scatter write of the seed
scores into the local `outlier_score`. -/
def evalBatch {σ : Type} (fm : Batch → Loss × List ℚ)
    (model_emb : Batch → List (List ℚ)) (st : EvalState σ) (b : Batch) :
    EvalState σ × Option String :=
  let bs := b.batch_size
  let (loss, score) := fm b
  let st1 := { st with det := writeEmb model_emb st.det b }
  if st1.det.gan then
    match loss with
    | .single _ => (st1, some "TypeError: scalar loss is not subscriptable")
    | .pair lg ld =>
        ({ st1 with test_loss_g := st1.test_loss_g + lg * (bs : ℚ)
                  , test_loss_d := ld * (bs : ℚ)
                  , outlier_score :=
                      scatterWrite st1.outlier_score (b.n_id.take bs) score },
         none)
  else
    match loss with
    | .pair _ _ =>
        (st1, some "ValueError: only one element tensors can be converted")
    | .single l =>
        ({ st1 with test_loss := l * (bs : ℚ)
                  , outlier_score :=
                      scatterWrite st1.outlier_score (b.n_id.take bs) score },
         none)

/-- The batch loop of `decision_function`: exactly one pass over the
sampler, stopping at the first raised error. -/
def runEvalBatches {σ : Type} (fm : Batch → Loss × List ℚ)
    (model_emb : Batch → List (List ℚ)) (st : EvalState σ) :
    List Batch → EvalState σ × Option String
  | [] => (st, none)
  | b :: bs =>
      match evalBatch fm model_emb st b with
      | (st', some msg) => (st', some msg)
      | (st', none) => runEvalBatches fm model_emb st' bs

/-- Result of a `decision_function` call: the state of `self` when the
call returned or raised, the returned score vector, and the raised
exception if any. -/
structure ScoreOutcome (σ : Type) where
  det : DeepDetector σ
  score : List ℚ
  error : Option String

/-- `DeepDetector.decision_function` (source lines 514-569):
`process_graph`, build the `NeighborLoader` from `(data, num_neigh,
batch_size)`, put the model in eval mode (`self.model.eval()` on an
unfitted detector, where `model` is `None`, raises), allocate a fresh
`outlier_score = torch.zeros(N)` sized to the node count of the new input and a
fresh embedding buffer when `save_emb` (single-tensor `hid_dim` case),
run one pass over the sampler, log once, and return the scores.
`threshold_`, `label_` and `decision_score_` are never written. -/
def DeepDetector.decision_function {σ : Type} (d : DeepDetector σ)
    (data : GraphData) (pg : GraphData → σ → σ)
    (NL : GraphData → List ℤ → ℕ → List Batch)
    (fm : Batch → Loss × List ℚ) (model_emb : Batch → List (List ℚ)) :
    ScoreOutcome σ :=
  let d1 := { d with sub := pg data d.sub }
  let loader := NL data d1.num_neigh d1.batch_size
  if ¬ d1.hasModel then
    { det := d1, score := []
    , error := some "AttributeError: NoneType object has no attribute eval" }
  else
    let d2 := if d1.save_emb
              then { d1 with emb := some (zerosMat data.num_nodes d1.hid_dim) }
              else d1
    let st0 : EvalState σ :=
      ⟨d2, List.replicate data.num_nodes (0 : ℚ), 0, 0, 0⟩
    match runEvalBatches fm model_emb st0 loader with
    | (st, some msg) => { det := st.det, score := st.outlier_score
                        , error := some msg }
    | (st, none) => { det := st.det, score := st.outlier_score, error := none }

/-- `DeepDetector.predict` (source lines 571-653), overriding the base
`predict`: when `return_emb` is set, force `save_emb := True` first
(source lines 637-638), then run the base predict logic — the
`is_fitted` check, the score source (stored `decision_score_` when
`data` is `None`, else `self.decision_function(data)`, which may
rewrite `self.emb`), and the flag-driven outputs — and finally append
the embedding buffer when `return_emb`.  Returns the state of `self`
together with the output tuple or the raised exception. -/
def DeepDetector.predict {σ : Type} (d : DeepDetector σ)
    (data : Option GraphData) (pg : GraphData → σ → σ)
    (NL : GraphData → List ℤ → ℕ → List Batch)
    (fm : Batch → Loss × List ℚ) (model_emb : Batch → List (List ℚ))
    (return_pred return_score return_prob : Bool) (prob_method : String)
    (nb : NumericBackend) (return_conf return_emb : Bool) :
    DeepDetector σ × Except String (List PredOut) :=
  let d1 := if return_emb then { d with save_emb := true } else d
  if ¬ d1.toDetector.isFitted then
    (d1, .error "NotFittedError: this detector is not fitted yet")
  else
    let scored : DeepDetector σ × Except String (List ℚ) :=
      match data with
      | none => (d1, .ok (d1.decision_score_.getD []))
      | some g =>
          let out := d1.decision_function g pg NL fm model_emb
          (out.det,
           match out.error with
           | some msg => .error msg
           | none => .ok out.score)
    match scored with
    | (d2, .error msg) => (d2, .error msg)
    | (d2, .ok score) =>
        let output := d2.toDetector.predictOutputs score return_pred
          return_score return_prob prob_method nb return_conf
        match output with
        | .error msg => (d2, .error msg)
        | .ok out =>
            if return_emb then (d2, .ok (out ++ [PredOut.emb d2.emb]))
            else (d2, .ok out)

/-! ## Helper lemmas: what the training / inference loops leave intact -/

theorem scatter_foldl_length {α : Type} (ps : List (ℕ × α)) (base : List α) :
    (ps.foldl (fun acc p => acc.set p.1 p.2) base).length = base.length := by
  induction ps generalizing base with
  | nil => rfl
  | cons p ps ih => simpa using ih (base.set p.1 p.2)

theorem scatterWrite_length {α : Type} (base : List α) (idx : List ℕ)
    (vals : List α) : (scatterWrite base idx vals).length = base.length :=
  scatter_foldl_length _ _

/-- All `DeepDetector` fields other than `decision_score_` and `emb`,
bundled as a tuple: the batch loops write nothing else. -/
def loopFrame {σ : Type} (d : DeepDetector σ) :=
  (d.contamination, d.verbose, d.threshold_, d.label_, d.in_dim, d.num_nodes,
   d.hid_dim, d.num_layers, d.dropout, d.weight_decay, d.lr, d.epoch,
   d.device, d.batch_size, d.gan, d.num_neigh, d.hasModel, d.save_emb, d.sub)

theorem writeEmb_eq {σ : Type} (me : Batch → List (List ℚ))
    (det : DeepDetector σ) (b : Batch) :
    writeEmb me det b =
      { det with emb := if det.save_emb
          then some (scatterWrite (det.emb.getD []) (b.n_id.take b.batch_size)
                      ((me b).take b.batch_size))
          else det.emb } := by
  rcases det with ⟨base, i, n, hd, nl, dp, wd, lr, ep, dev, bs, g, nn, hm, se, em, sb⟩
  unfold writeEmb
  cases se <;> simp

theorem fitBatch_frame {σ : Type} (fm : Batch → Loss × List ℚ)
    (me : Batch → List (List ℚ)) (st : TrainState σ) (b : Batch) :
    loopFrame (fitBatch fm me st b).1.det = loopFrame st.det := by
  rw [fitBatch]
  rcases fm b with ⟨loss, score⟩
  dsimp only
  split <;> cases loss <;> simp [writeEmb_eq, loopFrame]

theorem fitBatch_isSome {σ : Type} (fm : Batch → Loss × List ℚ)
    (me : Batch → List (List ℚ)) (st : TrainState σ) (b : Batch)
    (h : st.det.decision_score_.isSome) :
    (fitBatch fm me st b).1.det.decision_score_.isSome := by
  rw [fitBatch]
  rcases fm b with ⟨loss, score⟩
  dsimp only
  split <;> cases loss <;> simp [writeEmb_eq, h]

theorem runBatches_frame {σ : Type} (fm : Batch → Loss × List ℚ)
    (me : Batch → List (List ℚ)) (bs : List Batch) : ∀ (st : TrainState σ),
    loopFrame (runBatches fm me st bs).1.det = loopFrame st.det := by
  induction bs with
  | nil => intro st; rfl
  | cons b bs ih =>
      intro st
      rw [runBatches]
      rcases h : fitBatch fm me st b with ⟨st', e⟩
      have hf := fitBatch_frame fm me st b
      rw [h] at hf
      cases e with
      | none => exact (ih st').trans hf
      | some msg => exact hf

theorem runBatches_isSome {σ : Type} (fm : Batch → Loss × List ℚ)
    (me : Batch → List (List ℚ)) (bs : List Batch) : ∀ (st : TrainState σ),
    st.det.decision_score_.isSome →
    (runBatches fm me st bs).1.det.decision_score_.isSome := by
  induction bs with
  | nil => intro st h; exact h
  | cons b bs ih =>
      intro st h
      rw [runBatches]
      rcases hb : fitBatch fm me st b with ⟨st', e⟩
      have hs := fitBatch_isSome fm me st b h
      rw [hb] at hs
      cases e with
      | none => exact ih st' hs
      | some msg => exact hs

theorem runEpochs_frame {σ : Type} (fm : Batch → Loss × List ℚ)
    (me : Batch → List (List ℚ)) (loader : List Batch) (n : ℕ) :
    ∀ (st : TrainState σ),
    loopFrame (runEpochs fm me loader n st).1.det = loopFrame st.det := by
  induction n with
  | zero => intro st; rfl
  | succ k ih =>
      intro st
      rw [runEpochs]
      rcases h : runBatches fm me
          { st with epoch_loss := 0, epoch_loss_g := 0, epoch_loss_d := 0 }
          loader with ⟨st', e⟩
      have hf := runBatches_frame fm me loader
          { st with epoch_loss := 0, epoch_loss_g := 0, epoch_loss_d := 0 }
      rw [h] at hf
      cases e with
      | none =>
          dsimp only
          split
          · exact hf
          · exact (ih st').trans hf
      | some msg => exact hf

theorem runEpochs_isSome {σ : Type} (fm : Batch → Loss × List ℚ)
    (me : Batch → List (List ℚ)) (loader : List Batch) (n : ℕ) :
    ∀ (st : TrainState σ), st.det.decision_score_.isSome →
    (runEpochs fm me loader n st).1.det.decision_score_.isSome := by
  induction n with
  | zero => intro st h; exact h
  | succ k ih =>
      intro st h
      rw [runEpochs]
      rcases hb : runBatches fm me
          { st with epoch_loss := 0, epoch_loss_g := 0, epoch_loss_d := 0 }
          loader with ⟨st', e⟩
      have hs := runBatches_isSome fm me loader
          { st with epoch_loss := 0, epoch_loss_g := 0, epoch_loss_d := 0 } h
      rw [hb] at hs
      cases e with
      | none =>
          dsimp only
          split
          · exact hs
          · exact ih st' hs
      | some msg => exact hs

/-- All `DeepDetector` fields other than `sub` and `emb`, bundled as a
tuple: `decision_function` writes nothing else. -/
def dfFrame {σ : Type} (d : DeepDetector σ) :=
  (d.contamination, d.verbose, d.threshold_, d.label_, d.decision_score_,
   d.in_dim, d.num_nodes, d.hid_dim, d.num_layers, d.dropout, d.weight_decay,
   d.lr, d.epoch, d.device, d.batch_size, d.gan, d.num_neigh, d.hasModel,
   d.save_emb)

theorem evalBatch_frame {σ : Type} (fm : Batch → Loss × List ℚ)
    (me : Batch → List (List ℚ)) (st : EvalState σ) (b : Batch) :
    dfFrame (evalBatch fm me st b).1.det = dfFrame st.det := by
  rw [evalBatch]
  rcases fm b with ⟨loss, score⟩
  dsimp only
  split <;> cases loss <;> simp [writeEmb_eq, dfFrame]

theorem evalBatch_scoreLen {σ : Type} (fm : Batch → Loss × List ℚ)
    (me : Batch → List (List ℚ)) (st : EvalState σ) (b : Batch) :
    (evalBatch fm me st b).1.outlier_score.length = st.outlier_score.length := by
  rw [evalBatch]
  rcases fm b with ⟨loss, score⟩
  dsimp only
  split <;> cases loss <;> simp [scatterWrite_length]

theorem runEvalBatches_frame {σ : Type} (fm : Batch → Loss × List ℚ)
    (me : Batch → List (List ℚ)) (bs : List Batch) : ∀ (st : EvalState σ),
    dfFrame (runEvalBatches fm me st bs).1.det = dfFrame st.det := by
  induction bs with
  | nil => intro st; rfl
  | cons b bs ih =>
      intro st
      rw [runEvalBatches]
      rcases h : evalBatch fm me st b with ⟨st', e⟩
      have hf := evalBatch_frame fm me st b
      rw [h] at hf
      cases e with
      | none => exact (ih st').trans hf
      | some msg => exact hf

theorem runEvalBatches_scoreLen {σ : Type} (fm : Batch → Loss × List ℚ)
    (me : Batch → List (List ℚ)) (bs : List Batch) : ∀ (st : EvalState σ),
    (runEvalBatches fm me st bs).1.outlier_score.length =
      st.outlier_score.length := by
  induction bs with
  | nil => intro st; rfl
  | cons b bs ih =>
      intro st
      rw [runEvalBatches]
      rcases h : evalBatch fm me st b with ⟨st', e⟩
      have hl := evalBatch_scoreLen fm me st b
      rw [h] at hl
      cases e with
      | none => exact (ih st').trans hl
      | some msg => exact hl

/-- `decision_function` never writes the statistics fields, the
training scores, or any construction parameter: only `sub` (via
`process_graph`) and `emb` can change, and a successful call returns a
score vector sized to the node count of the input. -/
theorem decision_function_frame {σ : Type} (d : DeepDetector σ)
    (data : GraphData) (pg : GraphData → σ → σ)
    (NL : GraphData → List ℤ → ℕ → List Batch)
    (fm : Batch → Loss × List ℚ) (me : Batch → List (List ℚ)) :
    dfFrame (d.decision_function data pg NL fm me).det = dfFrame d ∧
    ((d.decision_function data pg NL fm me).error = none →
      (d.decision_function data pg NL fm me).score.length = data.num_nodes) := by
  rw [DeepDetector.decision_function]
  dsimp only
  split
  · exact ⟨rfl, by intro h; cases h⟩
  · rcases h : runEvalBatches fm me
        ⟨if ({ d with sub := pg data d.sub } : DeepDetector σ).save_emb then
            { d with sub := pg data d.sub
                   , emb := some (zerosMat data.num_nodes
                       ({ d with sub := pg data d.sub } : DeepDetector σ).hid_dim) }
          else { d with sub := pg data d.sub },
          List.replicate data.num_nodes (0 : ℚ), 0, 0, 0⟩
        (NL data ({ d with sub := pg data d.sub } : DeepDetector σ).num_neigh
          ({ d with sub := pg data d.sub } : DeepDetector σ).batch_size)
        with ⟨st, e⟩
    have hf := runEvalBatches_frame fm me
        (NL data ({ d with sub := pg data d.sub } : DeepDetector σ).num_neigh
          ({ d with sub := pg data d.sub } : DeepDetector σ).batch_size)
        ⟨if ({ d with sub := pg data d.sub } : DeepDetector σ).save_emb then
            { d with sub := pg data d.sub
                   , emb := some (zerosMat data.num_nodes
                       ({ d with sub := pg data d.sub } : DeepDetector σ).hid_dim) }
          else { d with sub := pg data d.sub },
          List.replicate data.num_nodes (0 : ℚ), 0, 0, 0⟩
    have hl := runEvalBatches_scoreLen fm me
        (NL data ({ d with sub := pg data d.sub } : DeepDetector σ).num_neigh
          ({ d with sub := pg data d.sub } : DeepDetector σ).batch_size)
        ⟨if ({ d with sub := pg data d.sub } : DeepDetector σ).save_emb then
            { d with sub := pg data d.sub
                   , emb := some (zerosMat data.num_nodes
                       ({ d with sub := pg data d.sub } : DeepDetector σ).hid_dim) }
          else { d with sub := pg data d.sub },
          List.replicate data.num_nodes (0 : ℚ), 0, 0, 0⟩
    rw [h] at hf hl
    have hframe : dfFrame st.det = dfFrame d := by
      refine hf.trans ?_
      dsimp only
      split <;> simp [dfFrame]
    have hlen : st.outlier_score.length = data.num_nodes := by
      simpa using hl
    cases e with
    | none => exact ⟨hframe, fun _ => hlen⟩
    | some msg => exact ⟨hframe, fun hc => by cases hc⟩

theorem runEpochs_frame_of_eq {σ : Type} (fm : Batch → Loss × List ℚ)
    (me : Batch → List (List ℚ)) (L : List Batch) (n : ℕ)
    (S st : TrainState σ) (e : Option String)
    (h : runEpochs fm me L n S = (st, e)) :
    loopFrame st.det = loopFrame S.det := by
  have hf := runEpochs_frame fm me L n S
  rw [h] at hf
  exact hf

theorem runEpochs_isSome_of_eq {σ : Type} (fm : Batch → Loss × List ℚ)
    (me : Batch → List (List ℚ)) (L : List Batch) (n : ℕ)
    (S st : TrainState σ) (e : Option String)
    (h : runEpochs fm me L n S = (st, e))
    (hS : S.det.decision_score_.isSome) :
    st.det.decision_score_.isSome := by
  have hs := runEpochs_isSome fm me L n S hS
  rw [h] at hs
  exact hs

/-- Case analysis on a `fit` call: there is a post-loop state `st`
whose non-loop fields are exactly those set up before the epoch loop
(node counts recorded, zero `batch_size` resolved to the node count,
model instantiated, `process_graph` applied), whose score vector is
present, and the call either raised (returning `st` as-is) or returned
`st` with threshold and label derived by `_process_decision_score`. -/
theorem fit_cases {σ : Type} (d : DeepDetector σ) (data : GraphData)
    (pg : GraphData → σ → σ) (NL : GraphData → List ℤ → ℕ → List Batch)
    (fm : Batch → Loss × List ℚ) (me : Batch → List (List ℚ)) :
    ∃ st : TrainState σ,
      loopFrame st.det =
        (d.contamination, d.verbose, d.threshold_, d.label_,
         some data.in_dim, some data.num_nodes,
         d.hid_dim, d.num_layers, d.dropout, d.weight_decay, d.lr, d.epoch,
         d.device, if d.batch_size = 0 then data.num_nodes else d.batch_size,
         d.gan, d.num_neigh, true, d.save_emb, pg data d.sub) ∧
      st.det.decision_score_.isSome ∧
      (((d.fit data pg NL fm me).det = st.det ∧
        (d.fit data pg NL fm me).error ≠ none) ∨
       ((d.fit data pg NL fm me).det =
          { st.det with
              toDetector := st.det.toDetector._process_decision_score } ∧
        (d.fit data pg NL fm me).error = none)) := by
  rw [DeepDetector.fit]
  dsimp only
  split
  next hbz =>
    split
    next st msg heq =>
        refine ⟨st, ?_, ?_, .inl ⟨rfl, by simp⟩⟩
        · have hf := runEpochs_frame_of_eq fm me _ _ _ _ _ heq
          refine hf.trans ?_
          simp [loopFrame, hbz]
        · exact runEpochs_isSome_of_eq fm me _ _ _ _ _ heq (by simp)
    next st heq =>
        refine ⟨st, ?_, ?_, .inr ⟨rfl, rfl⟩⟩
        · have hf := runEpochs_frame_of_eq fm me _ _ _ _ _ heq
          refine hf.trans ?_
          simp [loopFrame, hbz]
        · exact runEpochs_isSome_of_eq fm me _ _ _ _ _ heq (by simp)
  next hbz =>
    split
    next st msg heq =>
        refine ⟨st, ?_, ?_, .inl ⟨rfl, by simp⟩⟩
        · have hf := runEpochs_frame_of_eq fm me _ _ _ _ _ heq
          refine hf.trans ?_
          simp [loopFrame, hbz]
        · exact runEpochs_isSome_of_eq fm me _ _ _ _ _ heq (by simp)
    next st heq =>
        refine ⟨st, ?_, ?_, .inr ⟨rfl, rfl⟩⟩
        · have hf := runEpochs_frame_of_eq fm me _ _ _ _ _ heq
          refine hf.trans ?_
          simp [loopFrame, hbz]
        · exact runEpochs_isSome_of_eq fm me _ _ _ _ _ heq (by simp)

/-- A successful `fit` ends by deriving threshold and label from the
final training-score vector via `_process_decision_score`. -/
theorem fit_success_shape {σ : Type} (d : DeepDetector σ) (data : GraphData)
    (pg : GraphData → σ → σ) (NL : GraphData → List ℤ → ℕ → List Batch)
    (fm : Batch → Loss × List ℚ) (me : Batch → List (List ℚ))
    (h : (d.fit data pg NL fm me).error = none) :
    ∃ scores : List ℚ,
      (d.fit data pg NL fm me).det.decision_score_ = some scores ∧
      (d.fit data pg NL fm me).det.threshold_ =
        some (percentile scores (100 * (1 - d.contamination))) ∧
      (d.fit data pg NL fm me).det.label_ =
        some (scores.map fun s =>
          if percentile scores (100 * (1 - d.contamination)) < s
          then (1 : ℤ) else 0) := by
  obtain ⟨st, hf, hs, hcase⟩ := fit_cases d data pg NL fm me
  rcases hcase with ⟨_, hne⟩ | ⟨hdet, _⟩
  · exact absurd h hne
  obtain ⟨scores, hsc⟩ := Option.isSome_iff_exists.mp hs
  have hc : st.det.contamination = d.contamination := by
    simpa [loopFrame, Prod.mk.injEq] using congrArg (fun t => t.1) hf
  refine ⟨scores, ?_, ?_, ?_⟩ <;>
    rw [hdet] <;>
    simp [Detector._process_decision_score, hsc, hc]

/-- `fit` leaves every construction parameter unchanged except
`batch_size`, which it resolves from `0` to the node count of the input. -/
theorem fit_params {σ : Type} (d : DeepDetector σ) (data : GraphData)
    (pg : GraphData → σ → σ) (NL : GraphData → List ℤ → ℕ → List Batch)
    (fm : Batch → Loss × List ℚ) (me : Batch → List (List ℚ)) :
    (d.fit data pg NL fm me).det.hid_dim = d.hid_dim ∧
    (d.fit data pg NL fm me).det.num_layers = d.num_layers ∧
    (d.fit data pg NL fm me).det.dropout = d.dropout ∧
    (d.fit data pg NL fm me).det.weight_decay = d.weight_decay ∧
    (d.fit data pg NL fm me).det.lr = d.lr ∧
    (d.fit data pg NL fm me).det.epoch = d.epoch ∧
    (d.fit data pg NL fm me).det.num_neigh = d.num_neigh ∧
    (d.fit data pg NL fm me).det.gan = d.gan ∧
    (d.fit data pg NL fm me).det.device = d.device ∧
    (d.fit data pg NL fm me).det.save_emb = d.save_emb ∧
    (d.fit data pg NL fm me).det.batch_size =
      (if d.batch_size = 0 then data.num_nodes else d.batch_size) := by
  obtain ⟨st, hf, _, hcase⟩ := fit_cases d data pg NL fm me
  simp only [loopFrame, Prod.mk.injEq] at hf
  obtain ⟨hc, hv, hth, hlb, hi, hn, hhd, hnl, hdp, hwd, hlr, hep, hdev, hbs,
    hgan, hnn, hhm, hse, hsub⟩ := hf
  rcases hcase with ⟨hdet, _⟩ | ⟨hdet, _⟩ <;> rw [hdet] <;>
    exact ⟨hhd, hnl, hdp, hwd, hlr, hep, hnn, hgan, hdev, hse, hbs⟩

theorem fitBatch_trace_cases {σ : Type} (fm : Batch → Loss × List ℚ)
    (me : Batch → List (List ℚ)) (st : TrainState σ) (b : Batch) :
    (fitBatch fm me st b).1.trace = st.trace ∨
    (fitBatch fm me st b).1.trace = st.trace ++ ganOptOps ∨
    (fitBatch fm me st b).1.trace = st.trace ++ singleOptOps := by
  rw [fitBatch]
  rcases fm b with ⟨loss, score⟩
  dsimp only
  split <;> cases loss <;> simp

theorem fitBatch_no_dis_backward {σ : Type} (fm : Batch → Loss × List ℚ)
    (me : Batch → List (List ℚ)) (st : TrainState σ) (b : Batch)
    (h : OptEvent.backward OptName.discriminator ∉ st.trace) :
    OptEvent.backward OptName.discriminator ∉ (fitBatch fm me st b).1.trace := by
  rcases fitBatch_trace_cases fm me st b with h1 | h1 | h1 <;> rw [h1] <;>
    simp [ganOptOps, singleOptOps, h]

theorem runBatches_no_dis_backward {σ : Type} (fm : Batch → Loss × List ℚ)
    (me : Batch → List (List ℚ)) (bs : List Batch) : ∀ (st : TrainState σ),
    OptEvent.backward OptName.discriminator ∉ st.trace →
    OptEvent.backward OptName.discriminator ∉
      (runBatches fm me st bs).1.trace := by
  induction bs with
  | nil => intro st h; exact h
  | cons b bs ih =>
      intro st h
      rw [runBatches]
      rcases hb : fitBatch fm me st b with ⟨st', e⟩
      have hm := fitBatch_no_dis_backward fm me st b h
      rw [hb] at hm
      cases e with
      | none => exact ih st' hm
      | some msg => exact hm

theorem runEpochs_no_dis_backward {σ : Type} (fm : Batch → Loss × List ℚ)
    (me : Batch → List (List ℚ)) (loader : List Batch) (n : ℕ) :
    ∀ (st : TrainState σ),
    OptEvent.backward OptName.discriminator ∉ st.trace →
    OptEvent.backward OptName.discriminator ∉
      (runEpochs fm me loader n st).1.trace := by
  induction n with
  | zero => intro st h; exact h
  | succ k ih =>
      intro st h
      rw [runEpochs]
      rcases hb : runBatches fm me
          { st with epoch_loss := 0, epoch_loss_g := 0, epoch_loss_d := 0 }
          loader with ⟨st', e⟩
      have hm := runBatches_no_dis_backward fm me loader
          { st with epoch_loss := 0, epoch_loss_g := 0, epoch_loss_d := 0 } h
      rw [hb] at hm
      cases e with
      | none =>
          dsimp only
          split
          · exact hm
          · exact ih st' hm
      | some msg => exact hm

theorem runEpochs_no_dis_backward_of_eq {σ : Type}
    (fm : Batch → Loss × List ℚ) (me : Batch → List (List ℚ))
    (L : List Batch) (n : ℕ) (S st : TrainState σ) (e : Option String)
    (h : runEpochs fm me L n S = (st, e))
    (hS : OptEvent.backward OptName.discriminator ∉ S.trace) :
    OptEvent.backward OptName.discriminator ∉ st.trace := by
  have hm := runEpochs_no_dis_backward fm me L n S hS
  rw [h] at hm
  exact hm

/-- In no `fit` call, with or without `gan`, is the discriminator loss
component ever back-propagated: the only `backward` calls in the source
are `loss[0].backward()` (twice, in the `gan` branch) and
`loss.backward()`. -/
theorem fit_no_dis_backward {σ : Type} (d : DeepDetector σ) (data : GraphData)
    (pg : GraphData → σ → σ) (NL : GraphData → List ℤ → ℕ → List Batch)
    (fm : Batch → Loss × List ℚ) (me : Batch → List (List ℚ)) :
    OptEvent.backward OptName.discriminator ∉ (d.fit data pg NL fm me).trace := by
  rw [DeepDetector.fit]
  dsimp only
  split
  next st msg heq =>
      exact runEpochs_no_dis_backward_of_eq fm me _ _ _ _ _ heq (by simp)
  next st heq =>
      exact runEpochs_no_dis_backward_of_eq fm me _ _ _ _ _ heq (by simp)

/-- The fields `predict` can reach only through `decision_function`,
bundled as a tuple. -/
def predictFrame {σ : Type} (d : DeepDetector σ) :=
  (d.decision_score_, d.threshold_, d.label_, d.hid_dim, d.num_layers,
   d.dropout, d.weight_decay, d.lr, d.epoch, d.device, d.batch_size,
   d.gan, d.num_neigh)

theorem dfFrame_to_predictFrame {σ : Type} (a b : DeepDetector σ)
    (h : dfFrame a = dfFrame b) : predictFrame a = predictFrame b := by
  simp only [dfFrame, Prod.mk.injEq] at h
  obtain ⟨h1, h2, h3, h4, h5, h6, h7, h8, h9, h10, h11, h12, h13, h14, h15,
    h16, h17, h18, h19⟩ := h
  simp [predictFrame, h3, h4, h5, h8, h9, h10, h11, h12, h13, h14, h15,
    h16, h17]

theorem dfFrame_save_emb {σ : Type} (a b : DeepDetector σ)
    (h : dfFrame a = dfFrame b) : a.save_emb = b.save_emb := by
  simp only [dfFrame, Prod.mk.injEq] at h
  obtain ⟨h1, h2, h3, h4, h5, h6, h7, h8, h9, h10, h11, h12, h13, h14, h15,
    h16, h17, h18, h19⟩ := h
  exact h19

/-- `predict` never writes the stored scores, threshold, label, or any
construction parameter other than `save_emb`, which it forces to `True`
exactly when `return_emb` is requested. -/
theorem predict_frame {σ : Type} (d : DeepDetector σ) (data : Option GraphData)
    (pg : GraphData → σ → σ) (NL : GraphData → List ℤ → ℕ → List Batch)
    (fm : Batch → Loss × List ℚ) (me : Batch → List (List ℚ))
    (rp rs rpr : Bool) (pm : String) (nb : NumericBackend) (rc re : Bool) :
    predictFrame (d.predict data pg NL fm me rp rs rpr pm nb rc re).1 =
      predictFrame d ∧
    (d.predict data pg NL fm me rp rs rpr pm nb rc re).1.save_emb =
      (if re then true else d.save_emb) := by
  rw [DeepDetector.predict.eq_def]
  dsimp only
  have key : ∀ (d1 : DeepDetector σ),
      predictFrame d1 = predictFrame d → d1.save_emb = (if re then true else d.save_emb) →
      predictFrame
        (if ¬ d1.toDetector.isFitted = true then
          (d1, Except.error "NotFittedError: this detector is not fitted yet")
        else
          match
            (match data with
             | none => (d1, Except.ok (d1.decision_score_.getD []))
             | some g =>
                 (((d1.decision_function g pg NL fm me)).det,
                   match (d1.decision_function g pg NL fm me).error with
                   | some msg => Except.error msg
                   | none => Except.ok (d1.decision_function g pg NL fm me).score))
          with
          | (d2, Except.error msg) => (d2, Except.error msg)
          | (d2, Except.ok score) =>
              match d2.toDetector.predictOutputs score rp rs rpr pm nb rc with
              | Except.error msg => (d2, Except.error msg)
              | Except.ok out =>
                  if re then (d2, Except.ok (out ++ [PredOut.emb d2.emb]))
                  else (d2, Except.ok out)).1 = predictFrame d ∧
      (if ¬ d1.toDetector.isFitted = true then
          (d1, Except.error "NotFittedError: this detector is not fitted yet")
        else
          match
            (match data with
             | none => (d1, Except.ok (d1.decision_score_.getD []))
             | some g =>
                 (((d1.decision_function g pg NL fm me)).det,
                   match (d1.decision_function g pg NL fm me).error with
                   | some msg => Except.error msg
                   | none => Except.ok (d1.decision_function g pg NL fm me).score))
          with
          | (d2, Except.error msg) => (d2, Except.error msg)
          | (d2, Except.ok score) =>
              match d2.toDetector.predictOutputs score rp rs rpr pm nb rc with
              | Except.error msg => (d2, Except.error msg)
              | Except.ok out =>
                  if re then (d2, Except.ok (out ++ [PredOut.emb d2.emb]))
                  else (d2, Except.ok out)).1.save_emb =
        (if re then true else d.save_emb) := by
    intro d1 hpf hse
    split
    · exact ⟨hpf, hse⟩
    · cases data with
      | none =>
          dsimp only
          split
          · exact ⟨hpf, hse⟩
          · split
            next hre => exact ⟨hpf, by simp [hse, hre]⟩
            next hre => exact ⟨hpf, by simp [hse, hre]⟩
      | some g =>
          have hdf := (decision_function_frame d1 g pg NL fm me).1
          have hp := (dfFrame_to_predictFrame _ _ hdf).trans hpf
          have hs := (dfFrame_save_emb _ _ hdf).trans hse
          dsimp only
          cases he : (d1.decision_function g pg NL fm me).error with
          | some msg => exact ⟨hp, hs⟩
          | none =>
              dsimp only
              split
              · exact ⟨hp, hs⟩
              · split
                next hre => exact ⟨hp, by simp [hs, hre]⟩
                next hre => exact ⟨hp, by simp [hs, hre]⟩
  cases re with
  | false => exact key d rfl rfl
  | true => exact key { d with save_emb := true } (by simp [predictFrame]) rfl

theorem Detector.make_ok (c : ℚ) (v : ℤ) (d : Detector)
    (h : Detector.make c v = Except.ok d) :
    d = { contamination := c, verbose := v, decision_score_ := none,
          threshold_ := none, label_ := none } := by
  rw [Detector.make] at h
  split at h
  · exact (Except.ok.inj h).symm
  · cases h

theorem DeepDetector.make_ok_fields {σ : Type} (sub : σ) (hd nl : ℕ) (dp wd : ℚ)
    (c : ℚ) (lr : ℚ) (ep : ℕ) (gpu : ℤ) (bs : ℕ) (nn : NumNeigh) (vb : ℤ)
    (gn se : Bool) (dd : DeepDetector σ)
    (h : DeepDetector.make sub hd nl dp wd c lr ep gpu bs nn vb gn se =
      Except.ok dd) :
    dd.contamination = c ∧ dd.decision_score_ = none ∧
    dd.threshold_ = none ∧ dd.label_ = none ∧ dd.hasModel = false ∧
    dd.batch_size = bs ∧ dd.save_emb = se ∧ dd.gan = gn := by
  rw [DeepDetector.make] at h
  rcases hm : Detector.make c vb with msg | base <;> rw [hm] at h
  · cases h
  · have hb := Detector.make_ok c vb base hm
    cases nn with
    | ofInt n =>
        dsimp only at h
        obtain rfl := (Except.ok.inj h).symm
        simp [hb]
    | ofList l =>
        dsimp only at h
        split at h
        · cases h
        · obtain rfl := (Except.ok.inj h).symm
          simp [hb]

/-! ## Concrete inputs used by witnesses and counterexamples -/

/-- The synthetic score vector `[1, 2, ..., 100]` from the spec. -/
def oneToHundred : List ℚ := (List.range 100).map (fun i => ((i : ℚ) + 1))

/-- A two-node input graph with three features per node. -/
def demoData : GraphData := ⟨2, 3⟩

/-- A sampler producing one batch with both nodes as seeds. -/
def demoLoader : GraphData → List ℤ → ℕ → List Batch := fun _ _ _ => [⟨2, [0, 1]⟩]

/-- A `process_graph` hook with no subclass state (OCGNN-style no-op). -/
def demoPg : GraphData → Unit → Unit := fun _ s => s

/-- A scoring model returning loss `3` and per-seed scores `[1, 2]`. -/
def demoForward : Batch → Loss × List ℚ := fun _ => (.single 3, [1, 2])

/-- A GAN scoring model with loss components `(2, 5)`. -/
def ganForward : Batch → Loss × List ℚ := fun _ => (.pair 2 5, [1, 2])

/-- A scoring model for fresh test data: scores `[5, 6]`. -/
def newForward : Batch → Loss × List ℚ := fun _ => (.single 0, [5, 6])

/-- The model embedding rows (unused: `save_emb` stays off). -/
def demoEmbRows : Batch → List (List ℚ) := fun _ => []

/-- A freshly constructed non-GAN `DeepDetector` with `contamination
1/2`, one epoch, `batch_size 2`. -/
def demoDet : DeepDetector Unit :=
  { contamination := 1/2, verbose := 0, decision_score_ := none,
    threshold_ := none, label_ := none, in_dim := none, num_nodes := none,
    hid_dim := 4, num_layers := 2, dropout := 0, weight_decay := 0, lr := 1,
    epoch := 1, device := -1, batch_size := 2, gan := false,
    num_neigh := [-1, -1], hasModel := false, save_emb := false, emb := none,
    sub := () }

/-- `demoDet` with `batch_size 0` (the "full batch" sentinel). -/
def demoDet0 : DeepDetector Unit := { demoDet with batch_size := 0 }

/-- `demoDet` with adversarial training selected. -/
def ganDet : DeepDetector Unit := { demoDet with gan := true }

/-- An already-fitted detector: training scores `[1, 2]`, threshold
`3/2`, labels `[0, 1]`, model instantiated. -/
def fittedDet : DeepDetector Unit :=
  { contamination := 1/2, verbose := 0, decision_score_ := some [1, 2],
    threshold_ := some (3/2), label_ := some [0, 1], in_dim := some 3,
    num_nodes := some 2, hid_dim := 4, num_layers := 2, dropout := 0,
    weight_decay := 0, lr := 1, epoch := 1, device := -1, batch_size := 2,
    gan := false, num_neigh := [-1, -1], hasModel := true, save_emb := false,
    emb := none, sub := () }

/-- A fitted base detector with training scores `[0, 10]` (the
linear-probability example of the spec). -/
def lin01Det : Detector :=
  ⟨1/10, 0, some [0, 10], some 9, some [0, 1]⟩

/-- A fitted base detector with training scores `[1, 2, 3, 4]` and
threshold `7/2`, for the confidence computation. -/
def confDet : Detector :=
  ⟨1/2, 0, some [1, 2, 3, 4], some (7/2), some [0, 0, 0, 1]⟩

/-- A trivial numeric backend (its values never matter for `linear`). -/
def demoNb : NumericBackend := ⟨fun x => x, fun _ => 1, 1⟩

/-! ## Claim theorems -/

/-- C1: the claim says that under `gan` each optimizer back-propagates
its own loss component.  The code does not: both `backward` calls use
`loss[0]`, the generator component (source lines 488 and 491), so the
discriminator loss is never back-propagated in any `fit` call — while
the discriminator optimizer is still zeroed and stepped once per batch.
The concrete `gan` run shows the exact per-batch optimizer sequence:
the event before `step discriminator` is `backward generator`. -/
theorem C1_gan_backward_uses_generator_loss :
    (∀ (σ : Type) (d : DeepDetector σ) (data : GraphData)
       (pg : GraphData → σ → σ) (NL : GraphData → List ℤ → ℕ → List Batch)
       (fm : Batch → Loss × List ℚ) (me : Batch → List (List ℚ)),
       OptEvent.backward OptName.discriminator ∉
         (d.fit data pg NL fm me).trace) ∧
    (ganDet.fit demoData demoPg demoLoader ganForward demoEmbRows).trace =
      [OptEvent.zero_grad OptName.generator,
       OptEvent.backward OptName.generator,
       OptEvent.step OptName.generator,
       OptEvent.zero_grad OptName.discriminator,
       OptEvent.backward OptName.generator,
       OptEvent.step OptName.discriminator] := by
  constructor
  · exact fun σ d data pg NL fm me => fit_no_dis_backward d data pg NL fm me
  · norm_num [DeepDetector.fit, runEpochs, runBatches, fitBatch, writeEmb,
      ganDet, demoDet, demoData, demoPg, demoLoader, ganForward, demoEmbRows,
      scatterWrite, ganOptOps, List.replicate, List.set]

/-- C2: after every successful `fit`, `threshold_` is the
`100 * (1 - contamination)` percentile (linear interpolation) of the
final stored `decision_score_`, recomputed from the scores of that
fit; on the synthetic vector `[1, ..., 100]` with contamination `0.1`
the percentile is exactly `90.1`. -/
theorem C2_threshold_is_percentile :
    (∀ (σ : Type) (d : DeepDetector σ) (data : GraphData)
       (pg : GraphData → σ → σ) (NL : GraphData → List ℤ → ℕ → List Batch)
       (fm : Batch → Loss × List ℚ) (me : Batch → List (List ℚ)),
       (d.fit data pg NL fm me).error = none →
       ∃ scores : List ℚ,
         (d.fit data pg NL fm me).det.decision_score_ = some scores ∧
         (d.fit data pg NL fm me).det.threshold_ =
           some (percentile scores (100 * (1 - d.contamination)))) ∧
    percentile oneToHundred (100 * (1 - 1/10)) = 901/10 := by
  constructor
  · intro σ d data pg NL fm me h
    obtain ⟨scores, h1, h2, _⟩ := fit_success_shape d data pg NL fm me h
    exact ⟨scores, h1, h2⟩
  · norm_num [percentile, sortScores, insertSorted, oneToHundred,
      List.range_succ, Int.toNat, List.getD]

/-- Witness for C2: the hypotheses hold at a concrete one-epoch fit. -/
theorem C2_threshold_is_percentile_witness :
    (demoDet.fit demoData demoPg demoLoader demoForward demoEmbRows).error =
      none ∧
    ∃ scores : List ℚ,
      (demoDet.fit demoData demoPg demoLoader demoForward
          demoEmbRows).det.decision_score_ = some scores ∧
      (demoDet.fit demoData demoPg demoLoader demoForward
          demoEmbRows).det.threshold_ =
        some (percentile scores (100 * (1 - demoDet.contamination))) := by
  have h : (demoDet.fit demoData demoPg demoLoader demoForward
      demoEmbRows).error = none := by
    norm_num [DeepDetector.fit, runEpochs, runBatches, fitBatch, writeEmb,
      demoDet, demoData, demoPg, demoLoader, demoForward, demoEmbRows,
      scatterWrite, List.replicate, List.set]
  exact ⟨h, C2_threshold_is_percentile.1 Unit demoDet demoData demoPg
    demoLoader demoForward demoEmbRows h⟩

/-- C3: after every successful `fit`, `label_[i] = 1` iff
`decision_score_[i]` strictly exceeds `threshold_`, and `0` otherwise
(scores equal to the threshold are labeled inlier). -/
theorem C3_label_above_threshold :
    ∀ (σ : Type) (d : DeepDetector σ) (data : GraphData)
      (pg : GraphData → σ → σ) (NL : GraphData → List ℤ → ℕ → List Batch)
      (fm : Batch → Loss × List ℚ) (me : Batch → List (List ℚ)),
      (d.fit data pg NL fm me).error = none →
      ∃ (scores : List ℚ) (t : ℚ) (lbl : List ℤ),
        (d.fit data pg NL fm me).det.decision_score_ = some scores ∧
        (d.fit data pg NL fm me).det.threshold_ = some t ∧
        (d.fit data pg NL fm me).det.label_ = some lbl ∧
        lbl.length = scores.length ∧
        ∀ i : ℕ, i < scores.length →
          ((lbl.getD i 0 = 1 ↔ t < scores.getD i 0) ∧
           (¬ t < scores.getD i 0 → lbl.getD i 0 = 0)) := by
  intro σ d data pg NL fm me h
  obtain ⟨scores, h1, h2, h3⟩ := fit_success_shape d data pg NL fm me h
  refine ⟨scores, percentile scores (100 * (1 - d.contamination)),
    scores.map fun s =>
      if percentile scores (100 * (1 - d.contamination)) < s
      then (1 : ℤ) else 0, h1, h2, h3, by simp, ?_⟩
  intro i hi
  have hg : (scores.map fun s =>
      if percentile scores (100 * (1 - d.contamination)) < s
      then (1 : ℤ) else 0).getD i 0 =
      (if percentile scores (100 * (1 - d.contamination)) < scores.getD i 0
       then (1 : ℤ) else 0) := by
    simp [List.getD_eq_getElem?_getD, List.getElem?_eq_getElem, hi,
      List.getElem?_map]
  rw [hg]
  by_cases ht : percentile scores (100 * (1 - d.contamination)) < scores.getD i 0
  · simp [ht]
  · simp [ht]

/-- Witness for C3: the hypotheses hold at a concrete one-epoch fit. -/
theorem C3_label_above_threshold_witness :
    (demoDet.fit demoData demoPg demoLoader demoForward demoEmbRows).error =
      none ∧
    ∃ (scores : List ℚ) (t : ℚ) (lbl : List ℤ),
      (demoDet.fit demoData demoPg demoLoader demoForward
          demoEmbRows).det.decision_score_ = some scores ∧
      (demoDet.fit demoData demoPg demoLoader demoForward
          demoEmbRows).det.threshold_ = some t ∧
      (demoDet.fit demoData demoPg demoLoader demoForward
          demoEmbRows).det.label_ = some lbl ∧
      lbl.length = scores.length ∧
      ∀ i : ℕ, i < scores.length →
        ((lbl.getD i 0 = 1 ↔ t < scores.getD i 0) ∧
         (¬ t < scores.getD i 0 → lbl.getD i 0 = 0)) := by
  have h : (demoDet.fit demoData demoPg demoLoader demoForward
      demoEmbRows).error = none := by
    norm_num [DeepDetector.fit, runEpochs, runBatches, fitBatch, writeEmb,
      demoDet, demoData, demoPg, demoLoader, demoForward, demoEmbRows,
      scatterWrite, List.replicate, List.set]
  exact ⟨h, C3_label_above_threshold Unit demoDet demoData demoPg demoLoader
    demoForward demoEmbRows h⟩

/-- C4: constructing a detector succeeds exactly for contamination in
`(0, 0.5]`; outside that range both the base constructor and the
`DeepDetector` constructor (whose `super().__init__` runs the check
before anything else, including `num_neigh` handling) raise the
configuration `ValueError`. -/
theorem C4_contamination_validation :
    ∀ (c : ℚ) (v : ℤ),
      ((0 < c ∧ c ≤ 1/2) →
        Detector.make c v = Except.ok
          { contamination := c, verbose := v, decision_score_ := none,
            threshold_ := none, label_ := none }) ∧
      (¬(0 < c ∧ c ≤ 1/2) →
        Detector.make c v =
          Except.error "ValueError: contamination must be in (0, 0.5]" ∧
        ∀ (σ : Type) (sub : σ) (hd nl : ℕ) (dp wd lr : ℚ) (ep : ℕ)
          (gpu : ℤ) (bs : ℕ) (nn : NumNeigh) (gn se : Bool),
          DeepDetector.make sub hd nl dp wd c lr ep gpu bs nn v gn se =
            Except.error "ValueError: contamination must be in (0, 0.5]") := by
  intro c v
  constructor
  · intro h
    rw [Detector.make, if_pos h]
  · intro h
    have hb : Detector.make c v =
        Except.error "ValueError: contamination must be in (0, 0.5]" := by
      rw [Detector.make, if_neg h]
    refine ⟨hb, ?_⟩
    intro σ sub hd nl dp wd lr ep gpu bs nn gn se
    rw [DeepDetector.make, hb]

/-- Witness for C4: `c = 1/4` constructs, `c = 3/5` is rejected. -/
theorem C4_contamination_validation_witness :
    Detector.make (1/4) 0 = Except.ok
      { contamination := 1/4, verbose := 0, decision_score_ := none,
        threshold_ := none, label_ := none } ∧
    Detector.make (3/5) 0 =
      Except.error "ValueError: contamination must be in (0, 0.5]" ∧
    DeepDetector.make () 4 2 0 0 (3/5) 1 1 (-1) 0 (NumNeigh.ofInt (-1)) 0
      false false =
      Except.error "ValueError: contamination must be in (0, 0.5]" := by
  refine ⟨(C4_contamination_validation (1/4) 0).1 (by norm_num), ?_, ?_⟩
  · exact ((C4_contamination_validation (3/5) 0).2 (by norm_num)).1
  · exact ((C4_contamination_validation (3/5) 0).2 (by norm_num)).2
      Unit () 4 2 0 0 1 1 (-1) 0 (NumNeigh.ofInt (-1)) false false

/-- C5: for a fitted detector, `_predict_conf` maps each test score `s`
to `1 - BinomialCDF(k; n, post)` with `n` the training-set size,
`k = n - ⌊n * contamination⌋` (Python `int()` truncation coincides with
the floor for the non-negative `n * contamination`), `post =
(1 + n_ins) / (2 + n)` with `n_ins` the number of training scores
`≤ s`, returned as-is when `s > threshold_` and flipped to one minus
itself when `s ≤ threshold_`. -/
theorem C5_confidence_formula :
    ∀ (d : Detector) (train : List ℚ) (t : ℚ) (score : List ℚ),
      d.decision_score_ = some train → d.threshold_ = some t →
      0 ≤ d.contamination →
      d._predict_conf score = Except.ok (score.map fun s =>
        let n := train.length
        let k : ℤ := (n : ℤ) - ⌊(n : ℚ) * d.contamination⌋
        let n_ins := (train.filter fun x => x ≤ s).length
        let post : ℚ := (1 + (n_ins : ℚ)) / (2 + (n : ℚ))
        let conf := 1 - binom_cdf k n post
        if t < s then conf else 1 - conf) := by
  intro d train t score hds ht hc
  have htr : truncToInt ((train.length : ℚ) * d.contamination) =
      ⌊(train.length : ℚ) * d.contamination⌋ := by
    rw [truncToInt, if_pos (mul_nonneg (Nat.cast_nonneg _) hc)]
  simp [Detector._predict_conf, hds, ht, htr]

/-- Witness for C5: the hypotheses hold at the fitted `confDet`
(training scores `[1, 2, 3, 4]`, threshold `7/2`, contamination `1/2`)
evaluated at the single test score `5`. -/
theorem C5_confidence_formula_witness :
    confDet.decision_score_ = some [1, 2, 3, 4] ∧
    confDet.threshold_ = some (7/2) ∧
    (0 : ℚ) ≤ confDet.contamination ∧
    confDet._predict_conf [5] = Except.ok ([(5 : ℚ)].map fun s =>
      let n := ([(1 : ℚ), 2, 3, 4]).length
      let k : ℤ := (n : ℤ) - ⌊(n : ℚ) * confDet.contamination⌋
      let n_ins := (([(1 : ℚ), 2, 3, 4]).filter fun x => x ≤ s).length
      let post : ℚ := (1 + (n_ins : ℚ)) / (2 + (n : ℚ))
      let conf := 1 - binom_cdf k n post
      if (7/2 : ℚ) < s then conf else 1 - conf) :=
  ⟨rfl, rfl, by norm_num [confDet],
   C5_confidence_formula confDet [1, 2, 3, 4] (7/2) [5] rfl rfl
     (by norm_num [confDet])⟩

/-- C6: the `linear` probability of any score vector is the min-max
rescaling by the stored training scores, clamped to `[0, 1]`; for
training scores `[0, 10]`, the test scores `5`, `-5`, `15` map to
`1/2`, `0` and `1`. -/
theorem C6_linear_probability :
    (∀ (d : Detector) (train score : List ℚ) (nb : NumericBackend),
       d.decision_score_ = some train →
       d._predict_prob score "linear" nb = Except.ok (score.map fun s =>
         clamp01 ((s - listMin train) / (listMax train - listMin train)))) ∧
    (∀ nb : NumericBackend,
       lin01Det._predict_prob [5, -5, 15] "linear" nb =
         Except.ok [1/2, 0, 1]) := by
  constructor
  · intro d train score nb hds
    simp [Detector._predict_prob, hds]
  · intro nb
    norm_num [Detector._predict_prob, lin01Det, listMin, listMax, clamp01,
      List.min?, List.max?, min_def, max_def]

/-- Witness for C6: the hypothesis holds at the fitted `lin01Det`. -/
theorem C6_linear_probability_witness :
    lin01Det.decision_score_ = some [0, 10] ∧
    lin01Det._predict_prob [5] "linear" demoNb =
      Except.ok ([(5 : ℚ)].map fun s =>
        clamp01 ((s - listMin [0, 10]) / (listMax [0, 10] - listMin [0, 10]))) :=
  ⟨rfl, C6_linear_probability.1 lin01Det [0, 10] [5] demoNb rfl⟩

/-- C7: on a freshly constructed detector (base or deep), every
`predict` call fails with the "not fitted" state error before any score
computation, because `decision_score_`, `threshold_` and `label_` are
absent. -/
theorem C7_predict_before_fit_fails :
    (∀ (c : ℚ) (v : ℤ) (d : Detector), Detector.make c v = Except.ok d →
       ∀ (γ : Type) (data : Option γ) (df : γ → List ℚ)
         (rp rs rpr : Bool) (pm : String) (nb : NumericBackend) (rc : Bool),
         d.predict data df rp rs rpr pm nb rc =
           Except.error "NotFittedError: this detector is not fitted yet") ∧
    (∀ (σ : Type) (sub : σ) (hd nl : ℕ) (dp wd c lr : ℚ) (ep : ℕ) (gpu : ℤ)
       (bs : ℕ) (nn : NumNeigh) (vb : ℤ) (gn se : Bool)
       (dd : DeepDetector σ),
       DeepDetector.make sub hd nl dp wd c lr ep gpu bs nn vb gn se =
         Except.ok dd →
       ∀ (data : Option GraphData) (pg : GraphData → σ → σ)
         (NL : GraphData → List ℤ → ℕ → List Batch)
         (fm : Batch → Loss × List ℚ) (me : Batch → List (List ℚ))
         (rp rs rpr : Bool) (pm : String) (nb : NumericBackend) (rc re : Bool),
         (dd.predict data pg NL fm me rp rs rpr pm nb rc re).2 =
           Except.error "NotFittedError: this detector is not fitted yet") := by
  constructor
  · intro c v d h γ data df rp rs rpr pm nb rc
    have hd := Detector.make_ok c v d h
    subst hd
    rw [Detector.predict.eq_def]
    simp [Detector.isFitted]
  · intro σ sub hd nl dp wd c lr ep gpu bs nn vb gn se dd h data pg NL fm me
      rp rs rpr pm nb rc re
    obtain ⟨_, hds, hth, hlb, _, _, _, _⟩ :=
      DeepDetector.make_ok_fields sub hd nl dp wd c lr ep gpu bs nn vb gn se dd h
    have hnf : ¬ ((if re = true then { dd with save_emb := true } else dd) :
        DeepDetector σ).toDetector.isFitted = true := by
      cases re <;> simp [Detector.isFitted, hth]
    rw [DeepDetector.predict.eq_def]
    dsimp only
    rw [if_pos hnf]

/-- Witness for C7: a freshly constructed detector with contamination
`1/10` rejects `predict`. -/
theorem C7_predict_before_fit_fails_witness :
    Detector.make (1/10) 0 = Except.ok
      { contamination := 1/10, verbose := 0, decision_score_ := none,
        threshold_ := none, label_ := none } ∧
    Detector.predict
      { contamination := 1/10, verbose := 0, decision_score_ := none,
        threshold_ := none, label_ := none }
      (none : Option GraphData) (fun _ => []) true false false "linear"
      demoNb false =
      Except.error "NotFittedError: this detector is not fitted yet" := by
  have hm : Detector.make (1/10) 0 = Except.ok
      { contamination := 1/10, verbose := 0, decision_score_ := none,
        threshold_ := none, label_ := none } := by
    rw [Detector.make, if_pos (by norm_num)]
  exact ⟨hm, C7_predict_before_fit_fails.1 (1/10) 0 _ hm GraphData none
    (fun _ => []) true false false "linear" demoNb false⟩

/-- C8: `decision_function` writes the new scores into a freshly
allocated vector sized to the node count of the new data (the `torch.zeros(N)`
buffer, scatter-filled per batch), and leaves `threshold_` and `label_`
exactly equal to their pre-call values, for every detector and input. -/
theorem C8_decision_function_preserves_stats :
    ∀ (σ : Type) (d : DeepDetector σ) (data : GraphData)
      (pg : GraphData → σ → σ) (NL : GraphData → List ℤ → ℕ → List Batch)
      (fm : Batch → Loss × List ℚ) (me : Batch → List (List ℚ)),
      (d.decision_function data pg NL fm me).det.threshold_ = d.threshold_ ∧
      (d.decision_function data pg NL fm me).det.label_ = d.label_ ∧
      ((d.decision_function data pg NL fm me).error = none →
        (d.decision_function data pg NL fm me).score.length =
          data.num_nodes) := by
  intro σ d data pg NL fm me
  obtain ⟨hf, hl⟩ := decision_function_frame d data pg NL fm me
  simp only [dfFrame, Prod.mk.injEq] at hf
  obtain ⟨h1, h2, h3, h4, h5, h6, h7, h8, h9, h10, h11, h12, h13, h14, h15,
    h16, h17, h18, h19⟩ := hf
  exact ⟨h3, h4, hl⟩

/-- Witness for C8 at a concrete fitted detector and fresh data: the
call succeeds, and threshold and label are bit-identical afterwards. -/
theorem C8_decision_function_preserves_stats_witness :
    (fittedDet.decision_function demoData demoPg demoLoader newForward
        demoEmbRows).det.threshold_ = fittedDet.threshold_ ∧
    (fittedDet.decision_function demoData demoPg demoLoader newForward
        demoEmbRows).det.label_ = fittedDet.label_ ∧
    (fittedDet.decision_function demoData demoPg demoLoader newForward
        demoEmbRows).error = none ∧
    (fittedDet.decision_function demoData demoPg demoLoader newForward
        demoEmbRows).score.length = demoData.num_nodes := by
  have h := C8_decision_function_preserves_stats Unit fittedDet demoData
    demoPg demoLoader newForward demoEmbRows
  have he : (fittedDet.decision_function demoData demoPg demoLoader
      newForward demoEmbRows).error = none := by
    norm_num [DeepDetector.decision_function, runEvalBatches, evalBatch,
      writeEmb, fittedDet, demoData, demoPg, demoLoader, newForward,
      demoEmbRows, scatterWrite, List.replicate, List.set]
  exact ⟨h.1, h.2.1, he, h.2.2 he⟩

/-- C9 counterexample: the claim says a `decision_function` call on new
data replaces the stored `decision_score_` wholesale with the freshly
computed scores.  It does not: for the fitted detector with stored
scores `[1, 2]`, a successful `decision_function` call computing scores
`[5, 6]` leaves the stored vector at `[1, 2]`, which differs from the
returned vector — the source writes into the local `outlier_score`
only and never assigns `self.decision_score_`. -/
theorem C9_counterexample_scores_not_replaced :
    (fittedDet.decision_function demoData demoPg demoLoader newForward
        demoEmbRows).error = none ∧
    (fittedDet.decision_function demoData demoPg demoLoader newForward
        demoEmbRows).score = [5, 6] ∧
    (fittedDet.decision_function demoData demoPg demoLoader newForward
        demoEmbRows).det.decision_score_ = some [1, 2] ∧
    (fittedDet.decision_function demoData demoPg demoLoader newForward
        demoEmbRows).det.decision_score_ ≠
      some (fittedDet.decision_function demoData demoPg demoLoader newForward
        demoEmbRows).score := by
  norm_num [DeepDetector.decision_function, runEvalBatches, evalBatch,
    writeEmb, fittedDet, demoData, demoPg, demoLoader, newForward,
    demoEmbRows, scatterWrite, List.replicate, List.set]

/-- C9 amended: a `decision_function` call (directly or through
`predict` with new data) leaves the stored `decision_score_` unchanged;
the newly computed score vector is only returned.  The stored vector is
replaced only by a subsequent `fit`. -/
theorem C9_amended_scores_unchanged :
    ∀ (σ : Type) (d : DeepDetector σ) (data : GraphData)
      (pg : GraphData → σ → σ) (NL : GraphData → List ℤ → ℕ → List Batch)
      (fm : Batch → Loss × List ℚ) (me : Batch → List (List ℚ))
      (dataOpt : Option GraphData) (rp rs rpr : Bool) (pm : String)
      (nb : NumericBackend) (rc re : Bool),
      (d.decision_function data pg NL fm me).det.decision_score_ =
        d.decision_score_ ∧
      (d.predict dataOpt pg NL fm me rp rs rpr pm nb rc re).1.decision_score_ =
        d.decision_score_ := by
  intro σ d data pg NL fm me dataOpt rp rs rpr pm nb rc re
  constructor
  · obtain ⟨hf, _⟩ := decision_function_frame d data pg NL fm me
    simp only [dfFrame, Prod.mk.injEq] at hf
    exact hf.2.2.2.2.1
  · obtain ⟨hf, _⟩ := predict_frame d dataOpt pg NL fm me rp rs rpr pm nb rc re
    simp only [predictFrame, Prod.mk.injEq] at hf
    exact hf.1

/-- C10 counterexample: the claim says every construction parameter,
`batch_size` included, is immutable after construction.  It is not:
a detector constructed with `batch_size = 0` has, after one `fit` on a
two-node graph, `batch_size = 2` — `fit` overwrites the sentinel with
the node count (source lines 433-434). -/
theorem C10_counterexample_batch_size_mutated :
    DeepDetector.make () 4 2 0 0 (1/2) 1 1 (-1) 0 (NumNeigh.ofInt (-1)) 0
      false false = Except.ok demoDet0 ∧
    demoDet0.batch_size = 0 ∧
    (demoDet0.fit demoData demoPg demoLoader demoForward
        demoEmbRows).det.batch_size = 2 := by
  refine ⟨?_, rfl, ?_⟩
  · rw [DeepDetector.make, Detector.make, if_pos (by norm_num)]
    norm_num [validate_device, demoDet0, demoDet, List.replicate]
  · have h := (fit_params demoDet0 demoData demoPg demoLoader demoForward
      demoEmbRows).2.2.2.2.2.2.2.2.2.2
    rw [h]
    norm_num [demoDet0, demoDet, demoData]

/-- C10 amended: all construction parameters are immutable after
construction except two: `fit` replaces a zero `batch_size` with the
node count of the input graph (a nonzero `batch_size` is never changed), and
`predict` forces `save_emb` to `True` when called with
`return_emb=True`.  `decision_function` changes none of them. -/
theorem C10_amended_params_immutable :
    ∀ (σ : Type) (d : DeepDetector σ) (data : GraphData)
      (pg : GraphData → σ → σ) (NL : GraphData → List ℤ → ℕ → List Batch)
      (fm : Batch → Loss × List ℚ) (me : Batch → List (List ℚ))
      (dataOpt : Option GraphData) (rp rs rpr : Bool) (pm : String)
      (nb : NumericBackend) (rc re : Bool),
      ((d.fit data pg NL fm me).det.hid_dim = d.hid_dim ∧
       (d.fit data pg NL fm me).det.num_layers = d.num_layers ∧
       (d.fit data pg NL fm me).det.dropout = d.dropout ∧
       (d.fit data pg NL fm me).det.weight_decay = d.weight_decay ∧
       (d.fit data pg NL fm me).det.lr = d.lr ∧
       (d.fit data pg NL fm me).det.epoch = d.epoch ∧
       (d.fit data pg NL fm me).det.num_neigh = d.num_neigh ∧
       (d.fit data pg NL fm me).det.gan = d.gan ∧
       (d.fit data pg NL fm me).det.device = d.device ∧
       (d.fit data pg NL fm me).det.save_emb = d.save_emb ∧
       (d.fit data pg NL fm me).det.batch_size =
         (if d.batch_size = 0 then data.num_nodes else d.batch_size)) ∧
      ((d.decision_function data pg NL fm me).det.hid_dim = d.hid_dim ∧
       (d.decision_function data pg NL fm me).det.num_layers = d.num_layers ∧
       (d.decision_function data pg NL fm me).det.dropout = d.dropout ∧
       (d.decision_function data pg NL fm me).det.weight_decay =
         d.weight_decay ∧
       (d.decision_function data pg NL fm me).det.lr = d.lr ∧
       (d.decision_function data pg NL fm me).det.epoch = d.epoch ∧
       (d.decision_function data pg NL fm me).det.num_neigh = d.num_neigh ∧
       (d.decision_function data pg NL fm me).det.gan = d.gan ∧
       (d.decision_function data pg NL fm me).det.device = d.device ∧
       (d.decision_function data pg NL fm me).det.save_emb = d.save_emb ∧
       (d.decision_function data pg NL fm me).det.batch_size = d.batch_size) ∧
      ((d.predict dataOpt pg NL fm me rp rs rpr pm nb rc re).1.hid_dim =
         d.hid_dim ∧
       (d.predict dataOpt pg NL fm me rp rs rpr pm nb rc re).1.num_layers =
         d.num_layers ∧
       (d.predict dataOpt pg NL fm me rp rs rpr pm nb rc re).1.dropout =
         d.dropout ∧
       (d.predict dataOpt pg NL fm me rp rs rpr pm nb rc re).1.weight_decay =
         d.weight_decay ∧
       (d.predict dataOpt pg NL fm me rp rs rpr pm nb rc re).1.lr = d.lr ∧
       (d.predict dataOpt pg NL fm me rp rs rpr pm nb rc re).1.epoch =
         d.epoch ∧
       (d.predict dataOpt pg NL fm me rp rs rpr pm nb rc re).1.num_neigh =
         d.num_neigh ∧
       (d.predict dataOpt pg NL fm me rp rs rpr pm nb rc re).1.gan = d.gan ∧
       (d.predict dataOpt pg NL fm me rp rs rpr pm nb rc re).1.device =
         d.device ∧
       (d.predict dataOpt pg NL fm me rp rs rpr pm nb rc re).1.batch_size =
         d.batch_size ∧
       (d.predict dataOpt pg NL fm me rp rs rpr pm nb rc re).1.save_emb =
         (if re then true else d.save_emb)) := by
  intro σ d data pg NL fm me dataOpt rp rs rpr pm nb rc re
  refine ⟨?_, ?_, ?_⟩
  · obtain ⟨h1, h2, h3, h4, h5, h6, h7, h8, h9, h10, h11⟩ :=
      fit_params d data pg NL fm me
    exact ⟨h1, h2, h3, h4, h5, h6, h7, h8, h9, h10, h11⟩
  · obtain ⟨hf, _⟩ := decision_function_frame d data pg NL fm me
    simp only [dfFrame, Prod.mk.injEq] at hf
    obtain ⟨h1, h2, h3, h4, h5, h6, h7, h8, h9, h10, h11, h12, h13, h14, h15,
      h16, h17, h18, h19⟩ := hf
    exact ⟨h8, h9, h10, h11, h12, h13, h17, h16, h14, h19, h15⟩
  · obtain ⟨hf, hse⟩ :=
      predict_frame d dataOpt pg NL fm me rp rs rpr pm nb rc re
    simp only [predictFrame, Prod.mk.injEq] at hf
    obtain ⟨h1, h2, h3, h4, h5, h6, h7, h8, h9, h10, h11, h12, h13⟩ := hf
    exact ⟨h4, h5, h6, h7, h8, h9, h13, h12, h10, h11, hse⟩

/-- Witness for the amended statement of C10 at concrete inputs (nonzero
`batch_size`, `return_emb = false`): every parameter is preserved. -/
theorem C10_amended_params_immutable_witness :
    (demoDet.fit demoData demoPg demoLoader demoForward
        demoEmbRows).det.batch_size =
      (if demoDet.batch_size = 0 then demoData.num_nodes
       else demoDet.batch_size) ∧
    (fittedDet.predict (some demoData) demoPg demoLoader newForward
        demoEmbRows true false false "linear" demoNb false
        false).1.save_emb = (if false then true else fittedDet.save_emb) := by
  constructor
  · exact (C10_amended_params_immutable Unit demoDet demoData demoPg
      demoLoader demoForward demoEmbRows none true false false "linear"
      demoNb false false).1.2.2.2.2.2.2.2.2.2.2
  · exact (C10_amended_params_immutable Unit fittedDet demoData demoPg
      demoLoader newForward demoEmbRows (some demoData) true false false
      "linear" demoNb false false).2.2.2.2.2.2.2.2.2.2.2.2

end PyGod
